import Mathlib

set_option maxRecDepth 8000

/-!
# Verification of the jobly SQL builder and repositories

Shallow embedding of the repository's dynamic-SQL helpers
(`helpers/sql.js`) and of the `Company` / `Job` repository methods
(`models/job.js`), together with theorems settling the frozen claims.

JavaScript runtime values that flow through these functions are modelled
by the inductive type `JSVal` (strings, integer numbers, booleans, the
`NaN` number and `undefined`), with JS truthiness made explicit.
JavaScript objects whose keys matter (the `dataToUpdate` map, the
`filters` record) are modelled as association lists in insertion order;
a JS object never holds the same key twice.
-/

/-- A JavaScript runtime value, restricted to the shapes that reach the
SQL builder: `undefined`, the `NaN` number, strings, integer-valued
numbers and booleans. -/
inductive JSVal where
  | undef
  | nan
  | str (s : String)
  | num (n : Int)
  | bool (b : Bool)
deriving Repr, DecidableEq

/-- JS truthiness: `undefined`, `NaN`, `""`, `0` and `false` are falsy,
everything else modelled here is truthy.  This is the meaning of the
source's `if (value)` guards. -/
def JSVal.truthy : JSVal → Bool
  | JSVal.undef => false
  | JSVal.nan => false
  | JSVal.str s => s ≠ ""
  | JSVal.num n => n ≠ 0
  | JSVal.bool b => b

/-- `Number.isNaN(v)`: true exactly on the `NaN` value (no coercion). -/
def JSVal.isNaN : JSVal → Bool
  | JSVal.nan => true
  | _ => false

/-- JS string coercion, as used by template literals such as the
`%...%` pattern interpolation. -/
def JSVal.toStr : JSVal → String
  | JSVal.undef => "undefined"
  | JSVal.nan => "NaN"
  | JSVal.str s => s
  | JSVal.num n => toString n
  | JSVal.bool b => if b then "true" else "false"

/-- Digits of a decimal prefix folded into a natural number. -/
def digitsVal (ds : List Char) : Nat :=
  ds.foldl (fun a c => a * 10 + (c.toNat - 48)) 0

/-- `Number.parseInt` on a string: skip leading spaces, read an optional
sign, then the longest prefix of decimal digits; `NaN` when that prefix
is empty.  (The hexadecimal `0x` form accepted by JS is not modelled;
no input relevant here uses it.) -/
def parseIntStr (s : String) : JSVal :=
  let cs := s.toList.dropWhile (fun c => c = ' ')
  let signed : Bool × List Char :=
    match cs with
    | '-' :: rest => (true, rest)
    | '+' :: rest => (false, rest)
    | _ => (false, cs)
  let ds := signed.2.takeWhile Char.isDigit
  if ds.isEmpty then JSVal.nan
  else JSVal.num (if signed.1 then -(digitsVal ds : Int) else (digitsVal ds : Int))

/-- `Number.parseInt` on an arbitrary value: the argument is coerced to
a string first, so numbers parse to themselves and `true`, `false`,
`undefined` parse to `NaN`. -/
def parseIntJS (v : JSVal) : JSVal :=
  parseIntStr v.toStr

/-- JS `>` as it is used in `minEmployees > maxEmployees`: at that point
both operands are (nonzero, non-`NaN`) numbers, so only the numeric case
matters. -/
def jsGT : JSVal → JSVal → Bool
  | JSVal.num a, JSVal.num b => a > b
  | _, _ => false

/-- Property lookup `obj[key]` on an object modelled as an association
list (first match; a JS object has no duplicate keys): absent keys give
`undefined`. -/
def lookupKey (fs : List (String × JSVal)) (k : String) : JSVal :=
  match fs.find? (fun p => p.1 == k) with
  | some p => p.2
  | none => JSVal.undef

/-- Result of `sqlForPartialUpdate`: the `SET` fragment and the parallel
parameter values. -/
structure SetClause where
  setCols : String
  values : List JSVal
deriving Repr, DecidableEq

/-- `jsToSql[colName] || colName`: the column name used for a data key.
A key absent from `jsToSql` — or mapped to a falsy value such as the
empty string — falls back to the key itself. -/
def colNameOf (jsToSql : List (String × String)) (colName : String) : String :=
  match jsToSql.find? (fun p => p.1 == colName) with
  | some p => if p.2 = "" then colName else p.2
  | none => colName

/-- `sqlForPartialUpdate(dataToUpdate, jsToSql)` from `helpers/sql.js`:
throws `BadRequestError("No data")` on an empty map, otherwise builds
one `"col"=$i` assignment per key (`i` starting at 1 in key order) and
returns them comma-joined together with the values in the same order. -/
def sqlForPartialUpdate (dataToUpdate : List (String × JSVal))
    (jsToSql : List (String × String)) : Except String SetClause :=
  let keys := dataToUpdate.map Prod.fst
  if keys.length = 0 then Except.error "No data"
  else
    let cols := keys.enum.map (fun p =>
      "\"" ++ colNameOf jsToSql p.2 ++ "\"=$" ++ toString (p.1 + 1))
    Except.ok ⟨String.intercalate ", " cols, dataToUpdate.map Prod.snd⟩

/-- Result of a filter generator: the (possibly empty) `WHERE` fragment
and the parallel parameter values. -/
structure SqlFrag where
  filtersSql : String
  values : List JSVal
deriving Repr, DecidableEq

/-- The destructured argument of `generateCompanyFiltersSql`. -/
structure CompanyFilterOpts where
  nameLike : JSVal
  minEmployees : JSVal
  maxEmployees : JSVal
deriving Repr, DecidableEq

/-- The destructured argument of `generateJobFiltersSql`. -/
structure JobFilterOpts where
  titleLike : JSVal
  minSalary : JSVal
  hasEquity : JSVal
deriving Repr, DecidableEq

/-- `generateCompanyFiltersSql` from `helpers/sql.js`, translated
branch by branch: `nameLike` always uses `$1`; `minEmployees` uses `$1`
when the fragment is still empty and the literal `$2` otherwise;
`maxEmployees` computes its placeholder as `values.length + 1`. -/
def generateCompanyFiltersSql (o : CompanyFilterOpts) : SqlFrag :=
  let filtersSql := ""
  let values : List JSVal := []
  let filtersSql :=
    if o.nameLike.truthy then filtersSql ++ "WHERE name ILIKE $1" else filtersSql
  let values :=
    if o.nameLike.truthy then
      values ++ [JSVal.str ("%" ++ o.nameLike.toStr ++ "%")]
    else values
  let filtersSql :=
    if o.minEmployees.truthy then
      if filtersSql = "" then filtersSql ++ "WHERE num_employees >= $1"
      else filtersSql ++ " AND num_employees >= $2"
    else filtersSql
  let values :=
    if o.minEmployees.truthy then values ++ [o.minEmployees] else values
  let filtersSql :=
    if o.maxEmployees.truthy then
      let numVar := values.length + 1
      if filtersSql = "" then
        filtersSql ++ ("WHERE num_employees <= $" ++ toString numVar)
      else filtersSql ++ (" AND num_employees <= $" ++ toString numVar)
    else filtersSql
  let values :=
    if o.maxEmployees.truthy then values ++ [o.maxEmployees] else values
  ⟨filtersSql, values⟩

/-- `generateJobFiltersSql` from `helpers/sql.js`: same shape as the
company generator; the `hasEquity` branch appends `equity IS NOT NULL`
and pushes no value. -/
def generateJobFiltersSql (o : JobFilterOpts) : SqlFrag :=
  let filtersSql := ""
  let values : List JSVal := []
  let filtersSql :=
    if o.titleLike.truthy then filtersSql ++ "WHERE title ILIKE $1" else filtersSql
  let values :=
    if o.titleLike.truthy then
      values ++ [JSVal.str ("%" ++ o.titleLike.toStr ++ "%")]
    else values
  let filtersSql :=
    if o.minSalary.truthy then
      if filtersSql = "" then filtersSql ++ "WHERE salary >= $1"
      else filtersSql ++ " AND salary >= $2"
    else filtersSql
  let values :=
    if o.minSalary.truthy then values ++ [o.minSalary] else values
  let filtersSql :=
    if o.hasEquity.truthy then
      if filtersSql = "" then filtersSql ++ "WHERE equity IS NOT NULL"
      else filtersSql ++ " AND equity IS NOT NULL"
    else filtersSql
  ⟨filtersSql, values⟩



/-! ## The findAll paths (validation up to the query boundary)

`findAll` either raises a `BadRequestError` or issues exactly one query;
the database itself is an external collaborator, so the embedding stops
at the query that would be issued (its SQL text, whitespace normalized
to single spaces, and its positional parameters). -/

/-- Outcome of a `findAll` call: the single query issued, or the
`BadRequestError` raised before any query. -/
inductive QueryOutcome where
  | query (sql : String) (params : List JSVal)
  | badRequest (msg : String)
deriving Repr, DecidableEq

/-- The unfiltered company `SELECT`. -/
def companiesNoFilterSql : String :=
  "SELECT handle, name, description, num_employees AS \"numEmployees\", logo_url AS \"logoUrl\" FROM companies ORDER BY name"

/-- The filtered company `SELECT`, with the generated fragment
interpolated after `FROM companies`. -/
def companiesFilteredSql (filtersSql : String) : String :=
  "SELECT handle, name, description, num_employees AS \"numEmployees\", logo_url AS \"logoUrl\" FROM companies " ++ filtersSql ++ " ORDER BY name"

/-- The unfiltered job `SELECT`. -/
def jobsNoFilterSql : String :=
  "SELECT id, title, salary, equity, company_handle AS \"companyHandle\" FROM jobs ORDER BY title"

/-- The filtered job `SELECT`. -/
def jobsFilteredSql (filtersSql : String) : String :=
  "SELECT id, title, salary, equity, company_handle AS \"companyHandle\" FROM jobs " ++ filtersSql ++ " ORDER BY title"

/-- The rest-pattern `...badFilters` of `Company.findAll`: every key of
the filters object other than the three recognized ones. -/
def companyBadFilters (fs : List (String × JSVal)) : List (String × JSVal) :=
  fs.filter (fun p =>
    ¬ (p.1 = "nameLike" ∨ p.1 = "minEmployees" ∨ p.1 = "maxEmployees"))

/-- The rest-pattern `...badFilters` of `Job.findAll`. -/
def jobBadFilters (fs : List (String × JSVal)) : List (String × JSVal) :=
  fs.filter (fun p =>
    ¬ (p.1 = "titleLike" ∨ p.1 = "minSalary" ∨ p.1 = "hasEquity"))

/-- `Company.findAll(filters)` from `models/job.js` up to the query it
issues: no (or an empty) filters object takes the unfiltered path;
otherwise truthy bounds are run through `parseInt`, `NaN` results, an
inverted truthy min/max pair and unknown keys each raise
`BadRequestError` (in that order), and finally the generated fragment is
interpolated into the filtered query. -/
def companyFindAll (filters : Option (List (String × JSVal))) : QueryOutcome :=
  match filters with
  | none => QueryOutcome.query companiesNoFilterSql []
  | some fs =>
    if fs.length = 0 then QueryOutcome.query companiesNoFilterSql []
    else
      let nameLike := lookupKey fs "nameLike"
      let minEmployees := lookupKey fs "minEmployees"
      let maxEmployees := lookupKey fs "maxEmployees"
      let minEmployees :=
        if minEmployees.truthy then parseIntJS minEmployees else minEmployees
      let maxEmployees :=
        if maxEmployees.truthy then parseIntJS maxEmployees else maxEmployees
      if minEmployees.isNaN || maxEmployees.isNaN then
        QueryOutcome.badRequest "minEmployees and maxEmployees must both be integers"
      else if minEmployees.truthy && maxEmployees.truthy && jsGT minEmployees maxEmployees then
        QueryOutcome.badRequest "minEmployees cannot be greater than maxEmployees"
      else if (companyBadFilters fs).length ≠ 0 then
        QueryOutcome.badRequest "Can only pass nameLike, minEmployees, and maxEmployees as filters"
      else
        let r := generateCompanyFiltersSql ⟨nameLike, minEmployees, maxEmployees⟩
        QueryOutcome.query (companiesFilteredSql r.filtersSql) r.values

/-- `Job.findAll(filters)` from `models/job.js` up to the query it
issues: a truthy `minSalary` is run through `parseInt`, the strings
`"true"` and `"false"` for `hasEquity` become booleans, then a `NaN`
`minSalary`, a `hasEquity` that is neither `undefined` nor a boolean,
and unknown keys each raise `BadRequestError` (in that order). -/
def jobFindAll (filters : Option (List (String × JSVal))) : QueryOutcome :=
  match filters with
  | none => QueryOutcome.query jobsNoFilterSql []
  | some fs =>
    if fs.length = 0 then QueryOutcome.query jobsNoFilterSql []
    else
      let titleLike := lookupKey fs "titleLike"
      let minSalary := lookupKey fs "minSalary"
      let hasEquity := lookupKey fs "hasEquity"
      let minSalary :=
        if minSalary.truthy then parseIntJS minSalary else minSalary
      let hasEquity :=
        if hasEquity = JSVal.str "true" then JSVal.bool true else hasEquity
      let hasEquity :=
        if hasEquity = JSVal.str "false" then JSVal.bool false else hasEquity
      if minSalary.isNaN then
        QueryOutcome.badRequest "minSalary must be an integer"
      else if hasEquity ≠ JSVal.undef ∧ hasEquity ≠ JSVal.bool true ∧ hasEquity ≠ JSVal.bool false then
        QueryOutcome.badRequest "hasEquity must be either true or false"
      else if (jobBadFilters fs).length ≠ 0 then
        QueryOutcome.badRequest "Can only pass titleLike, minSalary, and hasEquity as filters"
      else
        let r := generateJobFiltersSql ⟨titleLike, minSalary, hasEquity⟩
        QueryOutcome.query (jobsFilteredSql r.filtersSql) r.values




/-! ## Storage model and the stateful repository methods

`get` / `update` / `remove` touch the database, so they are embedded
against an explicit storage state: the two tables as lists of rows.
Each method returns its result (or the error it raises) together with
the storage state after the call; a single SQL statement either applies
fully or fails without effect, so an erroring query leaves the state it
received.  An `UPDATE` whose `SET` list names a column the table does
not have — or binds a value the column cannot take — fails at the
database (`dbError`) before touching any row, matching PostgreSQL,
which rejects such a statement even when no row matches the `WHERE`. -/

/-- A row of the `companies` table. -/
structure CompanyRow where
  handle : String
  name : String
  description : String
  numEmployees : Option Int
  logoUrl : Option String
deriving Repr, DecidableEq

/-- A row of the `jobs` table (`equity` is a `NUMERIC` returned to JS as
a decimal string). -/
structure JobRow where
  id : Int
  title : String
  salary : Option Int
  equity : Option String
  companyHandle : String
deriving Repr, DecidableEq

/-- The storage state: both tables. -/
structure DBState where
  companies : List CompanyRow
  jobs : List JobRow
deriving Repr, DecidableEq

/-- Errors a repository method can raise: `BadRequestError` (the
repository's validation error), `NotFoundError`, or a failure reported
by the database itself. -/
inductive RepoError where
  | badRequest (msg : String)
  | notFound (msg : String)
  | dbError
deriving Repr, DecidableEq

instance {ε α : Type} [DecidableEq ε] [DecidableEq α] : DecidableEq (Except ε α) :=
  fun x y =>
    match x, y with
    | Except.error a, Except.error b =>
      if h : a = b then isTrue (by rw [h])
      else isFalse (by intro hc; injection hc; contradiction)
    | Except.error _, Except.ok _ => isFalse (by intro hc; exact Except.noConfusion hc)
    | Except.ok _, Except.error _ => isFalse (by intro hc; exact Except.noConfusion hc)
    | Except.ok a, Except.ok b =>
      if h : a = b then isTrue (by rw [h])
      else isFalse (by intro hc; injection hc; contradiction)

/-- Whether `UPDATE companies SET "col"=val` is a statement the database
accepts: the column must exist and the bound value fit its type. -/
def companyColOk : String → JSVal → Bool
  | "handle", JSVal.str _ => true
  | "name", JSVal.str _ => true
  | "description", JSVal.str _ => true
  | "num_employees", JSVal.num _ => true
  | "logo_url", JSVal.str _ => true
  | _, _ => false

/-- Effect of one accepted assignment on a company row. -/
def setCompanyCol (r : CompanyRow) : String → JSVal → CompanyRow
  | "handle", JSVal.str s => { r with handle := s }
  | "name", JSVal.str s => { r with name := s }
  | "description", JSVal.str s => { r with description := s }
  | "num_employees", JSVal.num n => { r with numEmployees := some n }
  | "logo_url", JSVal.str s => { r with logoUrl := some s }
  | _, _ => r

/-- Whether `UPDATE jobs SET "col"=val` is a statement the database
accepts.  Note that the physical column is `company_handle`; a column
named `companyHandle` does not exist in the `jobs` table. -/
def jobColOk : String → JSVal → Bool
  | "id", JSVal.num _ => true
  | "title", JSVal.str _ => true
  | "salary", JSVal.num _ => true
  | "equity", JSVal.num _ => true
  | "equity", JSVal.str _ => true
  | "company_handle", JSVal.str _ => true
  | _, _ => false

/-- Effect of one accepted assignment on a job row. -/
def setJobCol (r : JobRow) : String → JSVal → JobRow
  | "id", JSVal.num n => { r with id := n }
  | "title", JSVal.str s => { r with title := s }
  | "salary", JSVal.num n => { r with salary := some n }
  | "equity", JSVal.num n => { r with equity := some (toString n) }
  | "equity", JSVal.str s => { r with equity := some s }
  | "company_handle", JSVal.str s => { r with companyHandle := s }
  | _, _ => r

/-- The `jsToSql` mapping `Company.update` passes to
`sqlForPartialUpdate`. -/
def companyJsToSql : List (String × String) :=
  [("numEmployees", "num_employees"), ("logoUrl", "logo_url")]

/-- The `(column, value)` assignments carried by the generated
`UPDATE ... SET` clause: column `i` is paired with placeholder `$(i+1)`,
whose bound value is the `i`-th entry of the value list. -/
def updateAssigns (data : List (String × JSVal)) (jsToSql : List (String × String)) :
    List (String × JSVal) :=
  data.map (fun p => (colNameOf jsToSql p.1, p.2))

/-- `Company.get(handle)` from `models/job.js`: the `LEFT JOIN` query
returns no row exactly when the handle is absent, which raises
`NotFoundError`; otherwise the company plus its jobs.  A `SELECT` never
changes storage. -/
def companyGet (st : DBState) (handle : String) :
    Except RepoError (CompanyRow × List JobRow) × DBState :=
  match st.companies.find? (fun r => r.handle == handle) with
  | none => (Except.error (RepoError.notFound ("No company: " ++ handle)), st)
  | some c =>
    (Except.ok (c, st.jobs.filter (fun j => j.companyHandle == handle)), st)

/-- `Job.get(id)` from `models/job.js`. -/
def jobGet (st : DBState) (id : Int) : Except RepoError JobRow × DBState :=
  match st.jobs.find? (fun r => r.id == id) with
  | none => (Except.error (RepoError.notFound ("No job with id: " ++ toString id)), st)
  | some j => (Except.ok j, st)

/-- `Company.update(handle, data)` from `models/job.js`: delegates to
`sqlForPartialUpdate` (so an empty `data` raises `BadRequestError`
first), then runs `UPDATE companies SET ... WHERE handle = $n
RETURNING ...`; no returned row raises `NotFoundError`. -/
def companyUpdate (st : DBState) (handle : String) (data : List (String × JSVal)) :
    Except RepoError CompanyRow × DBState :=
  match sqlForPartialUpdate data companyJsToSql with
  | Except.error msg => (Except.error (RepoError.badRequest msg), st)
  | Except.ok _clause =>
    let assigns := updateAssigns data companyJsToSql
    if assigns.all (fun p => companyColOk p.1 p.2) then
      let apply := fun (r : CompanyRow) =>
        assigns.foldl (fun r p => setCompanyCol r p.1 p.2) r
      let updated := st.companies.map (fun r => if r.handle == handle then apply r else r)
      let st' := { st with companies := updated }
      match st.companies.find? (fun r => r.handle == handle) with
      | some r => (Except.ok (apply r), st')
      | none =>
        (Except.error (RepoError.notFound ("No company: " ++ handle)), st')
    else (Except.error RepoError.dbError, st)

/-- `Job.update(id, data)` from `models/job.js`: as `Company.update`,
but with an empty `jsToSql`, so each data key is used verbatim as the
column name. -/
def jobUpdate (st : DBState) (id : Int) (data : List (String × JSVal)) :
    Except RepoError JobRow × DBState :=
  match sqlForPartialUpdate data [] with
  | Except.error msg => (Except.error (RepoError.badRequest msg), st)
  | Except.ok _clause =>
    let assigns := updateAssigns data []
    if assigns.all (fun p => jobColOk p.1 p.2) then
      let apply := fun (r : JobRow) =>
        assigns.foldl (fun r p => setJobCol r p.1 p.2) r
      let updated := st.jobs.map (fun r => if r.id == id then apply r else r)
      let st' := { st with jobs := updated }
      match st.jobs.find? (fun r => r.id == id) with
      | some r => (Except.ok (apply r), st')
      | none =>
        (Except.error (RepoError.notFound ("No job with id: " ++ toString id)), st')
    else (Except.error RepoError.dbError, st)

/-- `Company.remove(handle)` from `models/job.js`: `DELETE ... WHERE
handle = $1 RETURNING handle`; no returned row raises `NotFoundError`
(the delete itself has already run against the — then unmatched —
table). -/
def companyRemove (st : DBState) (handle : String) :
    Except RepoError Unit × DBState :=
  let st' := { st with companies :=
    st.companies.filter (fun r => ¬ (r.handle == handle)) }
  if st.companies.any (fun r => r.handle == handle) then (Except.ok (), st')
  else (Except.error (RepoError.notFound ("No company: " ++ handle)), st')

/-- `Job.remove(id)` from `models/job.js`. -/
def jobRemove (st : DBState) (id : Int) : Except RepoError Unit × DBState :=
  let st' := { st with jobs := st.jobs.filter (fun r => ¬ (r.id == id)) }
  if st.jobs.any (fun r => r.id == id) then (Except.ok (), st')
  else (Except.error (RepoError.notFound ("No job with id: " ++ toString id)), st')

/-! ## Reference constructions written from the specification

For the refinement-style claims, a second definition follows the spec's
words — one predicate per applied filter in the fixed key order,
`AND`-joined behind `WHERE`, placeholders numbered by position among the
applied filters, values in the same order — to be compared with the
embedding of the source. -/

/-- Spec reading: the applied (truthy) company filters, in the fixed key
order, each as (predicate text before the placeholder, parameter
value). -/
def companyApplied (o : CompanyFilterOpts) : List (String × JSVal) :=
  (if o.nameLike.truthy then
    [("name ILIKE", JSVal.str ("%" ++ o.nameLike.toStr ++ "%"))] else []) ++
  (if o.minEmployees.truthy then [("num_employees >=", o.minEmployees)] else []) ++
  (if o.maxEmployees.truthy then [("num_employees <=", o.maxEmployees)] else [])

/-- Spec reading: the applied parameterized job filters (the
parameterless `hasEquity` predicate is appended separately). -/
def jobParamApplied (o : JobFilterOpts) : List (String × JSVal) :=
  (if o.titleLike.truthy then
    [("title ILIKE", JSVal.str ("%" ++ o.titleLike.toStr ++ "%"))] else []) ++
  (if o.minSalary.truthy then [("salary >=", o.minSalary)] else [])

/-- Spec reading: number the applied predicates consecutively from `i`,
so each placeholder is the predicate's position among the applied
filters. -/
def numberedPreds : Nat → List (String × JSVal) → List String
  | _, [] => []
  | i, p :: rest => (p.1 ++ " $" ++ toString i) :: numberedPreds (i + 1) rest

/-- Spec reading: the empty fragment with no predicate, otherwise the
predicates joined with ` AND ` behind a single `WHERE `. -/
def andJoinWhere : List String → String
  | [] => ""
  | p :: ps => ps.foldl (fun acc q => acc ++ " AND " ++ q) ("WHERE " ++ p)

/-- The company filter fragment as the spec describes it. -/
def companyFiltersSpec (o : CompanyFilterOpts) : SqlFrag :=
  ⟨andJoinWhere (numberedPreds 1 (companyApplied o)),
   (companyApplied o).map Prod.snd⟩

/-- The job filter fragment as the spec describes it: parameterized
predicates first, then — when `hasEquity` is applied — the parameterless
null check, which contributes no value. -/
def jobFiltersSpec (o : JobFilterOpts) : SqlFrag :=
  ⟨andJoinWhere (numberedPreds 1 (jobParamApplied o) ++
      (if o.hasEquity.truthy then ["equity IS NOT NULL"] else [])),
   (jobParamApplied o).map Prod.snd⟩

/-- The claim's column rule, as stated: the `jsToSql` translation of
the key, or the key itself only when the key is absent from
`jsToSql`. -/
def claimColName (jsToSql : List (String × String)) (k : String) : String :=
  match jsToSql.find? (fun p => p.1 == k) with
  | some p => p.2
  | none => k

/-- Spec reading of the `SET` list: one `"col"=$i` assignment per key
with `i` counted from 1 in key order, for a given column rule. -/
def specAssignList (col : String → String) : Nat → List (String × JSVal) → List String
  | _, [] => []
  | i, p :: rest =>
    ("\"" ++ col p.1 ++ "\"=$" ++ toString i) :: specAssignList col (i + 1) rest

/-- The partial-update result as the spec describes it, for a given
column rule: comma-joined assignments and the values in key order. -/
def setClauseWith (col : String → String) (data : List (String × JSVal)) : SetClause :=
  ⟨String.intercalate ", " (specAssignList col 1 data), data.map Prod.snd⟩

/-! ## Shared helper lemmas -/

/-- Numbering the generated assignments from `i` via `enumFrom` agrees
with the spec-side recursion `specAssignList`. -/
theorem enumFrom_map_assign (col : String → String) :
    ∀ (data : List (String × JSVal)) (i : Nat),
      ((data.map Prod.fst).enumFrom i).map
        (fun p => "\"" ++ col p.2 ++ "\"=$" ++ toString (p.1 + 1)) =
      specAssignList col (i + 1) data := by
  intro data
  induction data with
  | nil => intro i; rfl
  | cons a rest ih =>
    intro i
    simp only [List.map_cons, List.enumFrom_cons, specAssignList]
    exact congrArg _ (ih (i + 1))

/-- A map that fixes every element of a list is the identity on it. -/
theorem list_map_id_on {α : Type} (f : α → α) :
    ∀ (l : List α), (∀ x ∈ l, f x = x) → l.map f = l := by
  intro l
  induction l with
  | nil => intro _; rfl
  | cons a rest ih =>
    intro h
    simp only [List.map_cons]
    rw [h a (List.mem_cons_self a rest), ih (fun x hx => h x (List.mem_cons_of_mem a hx))]

/-! ## The claims -/

/-- C1: for every options record, each applied (truthy) filter appends
exactly one predicate, predicates after the first are joined with
`AND`, the placeholder inside each predicate is numbered by the filter's
position among the applied filters (not its position in the input), and
the parameter list holds the corresponding values in the same order —
i.e. both generators coincide with the spec-side construction. -/
theorem generators_match_spec :
    (∀ o : CompanyFilterOpts, generateCompanyFiltersSql o = companyFiltersSpec o) ∧
    (∀ o : JobFilterOpts, generateJobFiltersSql o = jobFiltersSpec o) := by
  constructor
  · intro o
    cases h1 : o.nameLike.truthy <;> cases h2 : o.minEmployees.truthy <;>
      cases h3 : o.maxEmployees.truthy <;>
        simp [generateCompanyFiltersSql, companyFiltersSpec, companyApplied,
          numberedPreds, andJoinWhere, h1, h2, h3] <;> decide
  · intro o
    cases h1 : o.titleLike.truthy <;> cases h2 : o.minSalary.truthy <;>
      cases h3 : o.hasEquity.truthy <;>
        simp [generateJobFiltersSql, jobFiltersSpec, jobParamApplied,
          numberedPreds, andJoinWhere, h1, h2, h3] <;> decide

/-- C5: the partial-update generator rejects an empty field map with
`BadRequestError("No data")`, whatever `jsToSql` is supplied. -/
theorem empty_update_rejected (jsToSql : List (String × String)) :
    sqlForPartialUpdate [] jsToSql = Except.error "No data" := rfl

/-- C6: with no filters supplied (all three destructured options
`undefined`), both generators return the empty fragment and an empty
parameter list. -/
theorem no_filters_empty_result :
    generateCompanyFiltersSql ⟨JSVal.undef, JSVal.undef, JSVal.undef⟩ =
      ⟨"", []⟩ ∧
    generateJobFiltersSql ⟨JSVal.undef, JSVal.undef, JSVal.undef⟩ =
      ⟨"", []⟩ := by decide

/-- C7: `hasEquity = true` appends exactly the one `equity IS NOT NULL`
predicate to whatever the other filters produced and contributes no
parameter value; `hasEquity = false` behaves exactly like an absent
`hasEquity`. -/
theorem hasEquity_one_predicate_no_param :
    ∀ t m : JSVal,
      (generateJobFiltersSql ⟨t, m, JSVal.bool true⟩).values =
        (generateJobFiltersSql ⟨t, m, JSVal.undef⟩).values ∧
      (generateJobFiltersSql ⟨t, m, JSVal.bool true⟩).filtersSql =
        (if (generateJobFiltersSql ⟨t, m, JSVal.undef⟩).filtersSql = "" then
          "WHERE equity IS NOT NULL"
         else
          (generateJobFiltersSql ⟨t, m, JSVal.undef⟩).filtersSql ++
            " AND equity IS NOT NULL") ∧
      generateJobFiltersSql ⟨t, m, JSVal.bool false⟩ =
        generateJobFiltersSql ⟨t, m, JSVal.undef⟩ := by
  intro t m
  cases h1 : t.truthy <;> cases h2 : m.truthy <;>
    simp [generateJobFiltersSql, h1, h2] <;> decide

/-- C10: the SQL text returned by a generator depends only on which
filters are applied (truthy), never on the filter values themselves:
two options records with the same truthiness pattern yield identical
fragments, so client-supplied values reach only the parameter list. -/
theorem fragment_independent_of_values :
    (∀ a b : CompanyFilterOpts,
      a.nameLike.truthy = b.nameLike.truthy →
      a.minEmployees.truthy = b.minEmployees.truthy →
      a.maxEmployees.truthy = b.maxEmployees.truthy →
      (generateCompanyFiltersSql a).filtersSql =
        (generateCompanyFiltersSql b).filtersSql) ∧
    (∀ a b : JobFilterOpts,
      a.titleLike.truthy = b.titleLike.truthy →
      a.minSalary.truthy = b.minSalary.truthy →
      a.hasEquity.truthy = b.hasEquity.truthy →
      (generateJobFiltersSql a).filtersSql =
        (generateJobFiltersSql b).filtersSql) := by
  constructor
  · intro a b e1 e2 e3
    cases hb1 : b.nameLike.truthy <;> cases hb2 : b.minEmployees.truthy <;>
      cases hb3 : b.maxEmployees.truthy <;>
        simp [generateCompanyFiltersSql, hb1, hb2, hb3,
          e1.trans hb1, e2.trans hb2, e3.trans hb3]
  · intro a b e1 e2 e3
    cases hb1 : b.titleLike.truthy <;> cases hb2 : b.minSalary.truthy <;>
      cases hb3 : b.hasEquity.truthy <;>
        simp [generateJobFiltersSql, hb1, hb2, hb3,
          e1.trans hb1, e2.trans hb2, e3.trans hb3]

/-- Witness for C10 at concrete inputs: two different `nameLike` /
`titleLike` values produce the very same SQL text. -/
theorem fragment_independent_of_values_witness :
    (generateCompanyFiltersSql ⟨JSVal.str "acme", JSVal.undef, JSVal.num 5⟩).filtersSql =
      (generateCompanyFiltersSql ⟨JSVal.str "zz corp", JSVal.undef, JSVal.num 9⟩).filtersSql ∧
    (generateJobFiltersSql ⟨JSVal.str "eng", JSVal.num 10, JSVal.bool true⟩).filtersSql =
      (generateJobFiltersSql ⟨JSVal.str "sales", JSVal.num 99, JSVal.bool true⟩).filtersSql :=
  ⟨fragment_independent_of_values.1 _ _ (by decide) (by decide) (by decide),
   fragment_independent_of_values.2 _ _ (by decide) (by decide) (by decide)⟩

/-- The amended claim's column rule: the `jsToSql` translation of the
key, falling back to the key itself when the key is absent from
`jsToSql` or its translation is the empty string (a falsy translation
is discarded by the `||` fallback). -/
def amendedColName (jsToSql : List (String × String)) (k : String) : String :=
  match jsToSql.find? (fun p => p.1 == k) with
  | some p => if p.2 = "" then k else p.2
  | none => k

/-- C2 counterexample: with `jsToSql` mapping the key `a` to the empty
string, the claim predicts the translation (the empty column name), but
`"" || colName` falls back to the key, so the generated clause is
`"a"=$1`, not `""=$1`. -/
theorem partial_update_claim_counterexample :
    sqlForPartialUpdate [("a", JSVal.num 1)] [("a", "")] =
      Except.ok ⟨"\"a\"=$1", [JSVal.num 1]⟩ ∧
    setClauseWith (claimColName [("a", "")]) [("a", JSVal.num 1)] =
      ⟨"\"\"=$1", [JSVal.num 1]⟩ ∧
    sqlForPartialUpdate [("a", JSVal.num 1)] [("a", "")] ≠
      Except.ok (setClauseWith (claimColName [("a", "")]) [("a", JSVal.num 1)]) := by
  decide

/-- C2 (amended): for every non-empty field map, the generator returns
the comma-joined `"col"=$i` assignments with `i` running 1..N in input
key order and the values in the same order, where the column name is
the `jsToSql` translation of the key, or the key itself when the key is
absent from `jsToSql` or its translation is the empty string. -/
theorem partial_update_matches_amended (data : List (String × JSVal))
    (jsToSql : List (String × String)) (h : data ≠ []) :
    sqlForPartialUpdate data jsToSql =
      Except.ok (setClauseWith (amendedColName jsToSql) data) := by
  have hfun : amendedColName jsToSql = colNameOf jsToSql := funext (fun _ => rfl)
  have hlen : ¬ (data.map Prod.fst).length = 0 := by
    simp only [List.length_map, List.length_eq_zero]
    exact h
  unfold sqlForPartialUpdate setClauseWith
  rw [hfun, if_neg hlen]
  have he : (data.map Prod.fst).enum = (data.map Prod.fst).enumFrom 0 := rfl
  rw [he, enumFrom_map_assign (colNameOf jsToSql) data 0]

/-- Witness for C2 at the test's own input shape. -/
theorem partial_update_matches_amended_witness :
    ([("firstName", JSVal.str "Aliya"), ("age", JSVal.num 32)] :
      List (String × JSVal)) ≠ [] ∧
    sqlForPartialUpdate [("firstName", JSVal.str "Aliya"), ("age", JSVal.num 32)]
        [("firstName", "first_name")] =
      Except.ok (setClauseWith (amendedColName [("firstName", "first_name")])
        [("firstName", JSVal.str "Aliya"), ("age", JSVal.num 32)]) :=
  ⟨by decide,
   partial_update_matches_amended
     [("firstName", JSVal.str "Aliya"), ("age", JSVal.num 32)]
     [("firstName", "first_name")] (by decide)⟩


/-- The numeric-bound conversion inside `findAll`: a truthy supplied
value is replaced by its `parseInt`, a falsy one is left untouched. -/
def convertedBound (fs : List (String × JSVal)) (k : String) : JSVal :=
  if (lookupKey fs k).truthy then parseIntJS (lookupKey fs k) else lookupKey fs k

/-- A truthy value is never the `NaN` value. -/
theorem truthy_not_nan (v : JSVal) (h : v.truthy = true) : v.isNaN = false := by
  cases v <;> first | rfl | exact absurd h (by decide)

/-- C4 counterexample: `minEmployees` supplied as the empty string is
not parseable as an integer (`parseInt("")` is `NaN`), yet
`Company.findAll` raises no error: the falsy value skips both the
conversion and the `NaN` check, and a query is issued. -/
theorem unparseable_filter_counterexample :
    parseIntStr "" = JSVal.nan ∧
    companyFindAll (some [("minEmployees", JSVal.str "")]) =
      QueryOutcome.query (companiesFilteredSql "") [] := by decide

/-- C4 (amended): a supplied *truthy* numeric filter value that
`parseInt` cannot parse always makes `findAll` raise `BadRequestError`
before any query is issued; a falsy supplied value (such as the empty
string) is ignored instead. -/
theorem unparseable_truthy_filter_rejected (fs : List (String × JSVal)) :
    ((lookupKey fs "minEmployees").truthy = true →
      (parseIntJS (lookupKey fs "minEmployees")).isNaN = true →
      companyFindAll (some fs) =
        QueryOutcome.badRequest "minEmployees and maxEmployees must both be integers") ∧
    ((lookupKey fs "maxEmployees").truthy = true →
      (parseIntJS (lookupKey fs "maxEmployees")).isNaN = true →
      companyFindAll (some fs) =
        QueryOutcome.badRequest "minEmployees and maxEmployees must both be integers") ∧
    ((lookupKey fs "minSalary").truthy = true →
      (parseIntJS (lookupKey fs "minSalary")).isNaN = true →
      jobFindAll (some fs) =
        QueryOutcome.badRequest "minSalary must be an integer") := by
  have hne : ∀ k : String, (lookupKey fs k).truthy = true → ¬ fs.length = 0 := by
    intro k hk h0
    rw [List.length_eq_zero] at h0
    subst h0
    exact Bool.noConfusion ((rfl : (lookupKey [] k).truthy = false).symm.trans hk)
  refine ⟨fun ht hn => ?_, fun ht hn => ?_, fun ht hn => ?_⟩
  · simp [companyFindAll, hne _ ht, ht, hn]
  · simp [companyFindAll, hne _ ht, ht, hn]
  · simp [jobFindAll, hne _ ht, ht, hn]

/-- Witness for C4 (amended) at concrete unparseable truthy values. -/
theorem unparseable_truthy_filter_rejected_witness :
    companyFindAll (some [("minEmployees", JSVal.str "abc")]) =
      QueryOutcome.badRequest "minEmployees and maxEmployees must both be integers" ∧
    companyFindAll (some [("maxEmployees", JSVal.str "lots")]) =
      QueryOutcome.badRequest "minEmployees and maxEmployees must both be integers" ∧
    jobFindAll (some [("minSalary", JSVal.bool true)]) =
      QueryOutcome.badRequest "minSalary must be an integer" :=
  ⟨(unparseable_truthy_filter_rejected
      [("minEmployees", JSVal.str "abc")]).1 (by decide) (by decide),
   (unparseable_truthy_filter_rejected
      [("maxEmployees", JSVal.str "lots")]).2.1 (by decide) (by decide),
   (unparseable_truthy_filter_rejected
      [("minSalary", JSVal.bool true)]).2.2 (by decide) (by decide)⟩

/-- C8 counterexample: with `minEmployees=5` and `maxEmployees=0` both
supplied and `5 > 0`, no `ValidationError` is raised: `0` is falsy, so
the inverted-bounds guard is skipped and the query is issued with only
the lower bound. -/
theorem inverted_bounds_counterexample :
    companyFindAll (some [("minEmployees", JSVal.str "5"), ("maxEmployees", JSVal.str "0")]) =
      QueryOutcome.query (companiesFilteredSql "WHERE num_employees >= $1")
        [JSVal.num 5] ∧
    (5 : Int) > 0 := by decide

/-- C8 (amended): whenever both bounds are supplied with values that
convert to nonzero integers and the converted `minEmployees` exceeds the
converted `maxEmployees`, `Company.findAll` raises `BadRequestError`
before building any SQL or issuing any query; a bound converting to `0`
is treated as absent. -/
theorem inverted_bounds_rejected (fs : List (String × JSVal)) (a b : Int)
    (ha : a ≠ 0) (hb : b ≠ 0) (hab : a > b)
    (hmin : convertedBound fs "minEmployees" = JSVal.num a)
    (hmax : convertedBound fs "maxEmployees" = JSVal.num b) :
    companyFindAll (some fs) =
      QueryOutcome.badRequest "minEmployees cannot be greater than maxEmployees" := by
  have hne : ¬ fs.length = 0 := by
    intro h0
    rw [List.length_eq_zero] at h0
    subst h0
    exact JSVal.noConfusion
      ((rfl : JSVal.undef = convertedBound [] "minEmployees").trans hmin)
  simp only [convertedBound] at hmin hmax
  simp only [companyFindAll, if_neg hne]
  rw [hmin, hmax]
  simp [JSVal.isNaN, JSVal.truthy, jsGT, ha, hb, hab]

/-- Witness for C8 (amended): `minEmployees=5, maxEmployees=2`. -/
theorem inverted_bounds_rejected_witness :
    companyFindAll (some [("minEmployees", JSVal.str "5"), ("maxEmployees", JSVal.str "2")]) =
      QueryOutcome.badRequest "minEmployees cannot be greater than maxEmployees" :=
  inverted_bounds_rejected
    [("minEmployees", JSVal.str "5"), ("maxEmployees", JSVal.str "2")]
    5 2 (by decide) (by decide) (by decide) (by decide) (by decide)

/-- C3 counterexample: `Company.update` does not reject a payload that
renames the handle — the `handle` column is updated like any other
field, the call succeeds, and the stored handle changes from `c1` to
`c2`. -/
theorem handle_rename_counterexample :
    companyUpdate ⟨[⟨"c1", "C1 Inc", "d", some 3, none⟩], []⟩ "c1"
      [("handle", JSVal.str "c2")] =
      (Except.ok ⟨"c2", "C1 Inc", "d", some 3, none⟩,
       ⟨[⟨"c2", "C1 Inc", "d", some 3, none⟩], []⟩) := by decide

/-- C3 (amended): `Job.update` can never change a job's
`companyHandle`: any payload containing that key generates
`SET "companyHandle"=$i` against a column the `jobs` table does not
have, so the query fails at the database and storage is unchanged.
`Company.update`, by contrast, does not reject a handle rename: a
`handle` payload updates the stored handle of the matching row. -/
theorem companyHandle_immutable_handle_not :
    (∀ (st : DBState) (id : Int) (data : List (String × JSVal)) (v : JSVal),
      ("companyHandle", v) ∈ data →
      jobUpdate st id data = (Except.error RepoError.dbError, st)) ∧
    (∀ (st : DBState) (h s : String) (c : CompanyRow),
      st.companies.find? (fun r => r.handle == h) = some c →
      companyUpdate st h [("handle", JSVal.str s)] =
        (Except.ok { c with handle := s },
         (⟨st.companies.map
             (fun r => if r.handle == h then { r with handle := s } else r),
           st.jobs⟩ : DBState))) := by
  constructor
  · intro st id data v hmem
    have hne : ¬ (data.map Prod.fst).length = 0 := by
      cases data with
      | nil => cases hmem
      | cons a l => simp
    have hcol : jobColOk "companyHandle" v = false := by cases v <;> rfl
    have hmem' : ("companyHandle", v) ∈ updateAssigns data [] := by
      have hm := List.mem_map_of_mem (fun p : String × JSVal =>
        (colNameOf [] p.1, p.2)) hmem
      simpa [updateAssigns, colNameOf] using hm
    have hall : (updateAssigns data []).all (fun p => jobColOk p.1 p.2) = false := by
      cases hA : (updateAssigns data []).all (fun p => jobColOk p.1 p.2) with
      | false => rfl
      | true =>
        have := List.all_eq_true.mp hA _ hmem'
        rw [hcol] at this
        exact Bool.noConfusion this
    have hdne : data ≠ [] := by
      intro h0
      subst h0
      cases hmem
    simp [jobUpdate, sqlForPartialUpdate, hne, hdne, hall]
  · intro st h s c hfind
    have hok : companyColOk "handle" (JSVal.str s) = true := rfl
    simp [companyUpdate, sqlForPartialUpdate, updateAssigns, companyJsToSql,
      colNameOf, hfind, setCompanyCol, hok]

/-- Witness for C3 (amended) at a concrete one-company one-job state. -/
theorem companyHandle_immutable_handle_not_witness :
    jobUpdate ⟨[⟨"c1", "C1 Inc", "d", some 3, none⟩], [⟨1, "t", none, none, "c1"⟩]⟩ 1
      [("companyHandle", JSVal.str "c2")] =
      (Except.error RepoError.dbError,
       ⟨[⟨"c1", "C1 Inc", "d", some 3, none⟩], [⟨1, "t", none, none, "c1"⟩]⟩) ∧
    companyUpdate ⟨[⟨"c1", "C1 Inc", "d", some 3, none⟩], []⟩ "c1"
      [("handle", JSVal.str "c9")] =
      (Except.ok ⟨"c9", "C1 Inc", "d", some 3, none⟩,
       ⟨[⟨"c9", "C1 Inc", "d", some 3, none⟩], []⟩) := by
  constructor
  · exact companyHandle_immutable_handle_not.1 _ 1 _ (JSVal.str "c2")
      (List.mem_singleton.mpr rfl)
  · have hc := companyHandle_immutable_handle_not.2
      ⟨[⟨"c1", "C1 Inc", "d", some 3, none⟩], []⟩ "c1" "c9"
      ⟨"c1", "C1 Inc", "d", some 3, none⟩ (by decide)
    simpa using hc

/-- C9 counterexample: an `update` call on a non-existent job id, given
an empty payload, raises `BadRequestError("No data")` — a
`ValidationError`, not the `NotFoundError` the claim requires (storage
is unchanged). -/
theorem missing_target_counterexample :
    jobUpdate ⟨[], []⟩ 7 [] =
      (Except.error (RepoError.badRequest "No data"), ⟨[], []⟩) ∧
    (jobUpdate ⟨[], []⟩ 7 []).1 ≠
      Except.error (RepoError.notFound "No job with id: 7") := by decide

/-- C9 (amended): `get` and `remove` on a non-existent handle/id always
raise `NotFoundError` and leave storage unchanged; `update` does so too
provided its payload is non-empty (an empty payload raises
`BadRequestError` first) and names only columns the table accepts (an
unknown column fails at the database) — in those cases too the storage
is unchanged. -/
theorem missing_target_not_found :
    (∀ (st : DBState) (h : String), (∀ r ∈ st.companies, r.handle ≠ h) →
      companyGet st h =
        (Except.error (RepoError.notFound ("No company: " ++ h)), st) ∧
      companyRemove st h =
        (Except.error (RepoError.notFound ("No company: " ++ h)), st) ∧
      (∀ data : List (String × JSVal), data ≠ [] →
        (updateAssigns data companyJsToSql).all (fun p => companyColOk p.1 p.2) = true →
        companyUpdate st h data =
          (Except.error (RepoError.notFound ("No company: " ++ h)), st))) ∧
    (∀ (st : DBState) (id : Int), (∀ r ∈ st.jobs, r.id ≠ id) →
      jobGet st id =
        (Except.error (RepoError.notFound ("No job with id: " ++ toString id)), st) ∧
      jobRemove st id =
        (Except.error (RepoError.notFound ("No job with id: " ++ toString id)), st) ∧
      (∀ data : List (String × JSVal), data ≠ [] →
        (updateAssigns data []).all (fun p => jobColOk p.1 p.2) = true →
        jobUpdate st id data =
          (Except.error (RepoError.notFound ("No job with id: " ++ toString id)), st))) := by
  constructor
  · intro st h hne
    have hfind : st.companies.find? (fun r => r.handle == h) = none :=
      List.find?_eq_none.mpr (fun x hx => by simp [hne x hx])
    have hany : st.companies.any (fun r => r.handle == h) = false := by
      cases hA : st.companies.any (fun r => r.handle == h) with
      | false => rfl
      | true =>
        obtain ⟨x, hx, hpx⟩ := List.any_eq_true.mp hA
        exact absurd (by simpa using hpx) (hne x hx)
    refine ⟨?_, ?_, ?_⟩
    · simp [companyGet, hfind]
    · have hfilter : List.filter (fun r => !decide (r.handle = h)) st.companies =
          st.companies :=
        List.filter_eq_self.mpr (fun a ha => by simp [hne a ha])
      simp [companyRemove, hany]
      rw [hfilter]
    · intro data hd hcols
      have hmap : List.map (fun r => if r.handle = h then
          List.foldl (fun r p => setCompanyCol r p.1 p.2) r
            (updateAssigns data companyJsToSql) else r) st.companies =
          st.companies :=
        list_map_id_on _ _ (fun x hx => by simp [hne x hx])
      simp [companyUpdate, sqlForPartialUpdate, hd, hcols, hfind]
      rw [hmap]
  · intro st id hne
    have hfind : st.jobs.find? (fun r => r.id == id) = none :=
      List.find?_eq_none.mpr (fun x hx => by simp [hne x hx])
    have hany : st.jobs.any (fun r => r.id == id) = false := by
      cases hA : st.jobs.any (fun r => r.id == id) with
      | false => rfl
      | true =>
        obtain ⟨x, hx, hpx⟩ := List.any_eq_true.mp hA
        exact absurd (by simpa using hpx) (hne x hx)
    refine ⟨?_, ?_, ?_⟩
    · simp [jobGet, hfind]
    · have hfilter : List.filter (fun r => !decide (r.id = id)) st.jobs = st.jobs :=
        List.filter_eq_self.mpr (fun a ha => by simp [hne a ha])
      simp [jobRemove, hany]
      rw [hfilter]
    · intro data hd hcols
      have hmap : List.map (fun r => if r.id = id then
          List.foldl (fun r p => setJobCol r p.1 p.2) r
            (updateAssigns data []) else r) st.jobs = st.jobs :=
        list_map_id_on _ _ (fun x hx => by simp [hne x hx])
      simp [jobUpdate, sqlForPartialUpdate, hd, hcols, hfind]
      rw [hmap]

/-- Witness for C9 (amended) at concrete states, one conjunct per
repository operation. -/
theorem missing_target_not_found_witness :
    companyGet ⟨[⟨"c1", "n", "d", none, none⟩], []⟩ "nope" =
      (Except.error (RepoError.notFound ("No company: " ++ "nope")),
       ⟨[⟨"c1", "n", "d", none, none⟩], []⟩) ∧
    companyRemove ⟨[⟨"c1", "n", "d", none, none⟩], []⟩ "nope" =
      (Except.error (RepoError.notFound ("No company: " ++ "nope")),
       ⟨[⟨"c1", "n", "d", none, none⟩], []⟩) ∧
    companyUpdate ⟨[⟨"c1", "n", "d", none, none⟩], []⟩ "nope"
        [("name", JSVal.str "x")] =
      (Except.error (RepoError.notFound ("No company: " ++ "nope")),
       ⟨[⟨"c1", "n", "d", none, none⟩], []⟩) ∧
    jobGet ⟨[], [⟨1, "t", none, none, "c1"⟩]⟩ 42 =
      (Except.error (RepoError.notFound ("No job with id: " ++ toString (42 : Int))),
       ⟨[], [⟨1, "t", none, none, "c1"⟩]⟩) ∧
    jobRemove ⟨[], [⟨1, "t", none, none, "c1"⟩]⟩ 42 =
      (Except.error (RepoError.notFound ("No job with id: " ++ toString (42 : Int))),
       ⟨[], [⟨1, "t", none, none, "c1"⟩]⟩) ∧
    jobUpdate ⟨[], [⟨1, "t", none, none, "c1"⟩]⟩ 42 [("title", JSVal.str "x")] =
      (Except.error (RepoError.notFound ("No job with id: " ++ toString (42 : Int))),
       ⟨[], [⟨1, "t", none, none, "c1"⟩]⟩) := by
  have hc := missing_target_not_found.1 ⟨[⟨"c1", "n", "d", none, none⟩], []⟩ "nope"
    (by decide)
  have hj := missing_target_not_found.2 ⟨[], [⟨1, "t", none, none, "c1"⟩]⟩ 42
    (by decide)
  exact ⟨hc.1, hc.2.1, hc.2.2 [("name", JSVal.str "x")] (by decide) (by decide),
    hj.1, hj.2.1, hj.2.2 [("title", JSVal.str "x")] (by decide) (by decide)⟩
